import Mathlib

set_option maxRecDepth 100000

/-!
Verification development for the `clauded` confidence-hook scripts.

The Python hooks are shallowly embedded: strings become `String` / `List Char`,
Python `re` patterns are translated to explicit character scanners with the
exact semantics of the concrete patterns used by the code, JSON values that
matter are typed inductives, and each hook entry point becomes a pure function
from its stdin-derived inputs to the (single) JSON decision object it prints
plus its exit code.  File reads that can fail are `Option` inputs.

Sections mirror the source files:
  * shared string machinery (Python `in`, `count`, `lower`, `strip`, regexes)
  * transcript data model and `get_last_assistant_response`
    (src/setup/confidence-validator.py, identical copy in
    confidence-score-display.py)
  * config cache (src/setup/config-cache.py) and the per-hook config readers
  * UserPromptSubmit validator (src/setup/confidence-validator.py)
  * Stop hook (src/setup/confidence-score-display.py)
  * PostToolUse scorer (src/setup/confidence-scorer.py)
  * unified PostToolUse hook (src/setup/confidence-unified-posttool.py)
  * notification hook (test-install/src/setup/confidence-notification-hook.py)
-/

/-! ## Python string primitives (ASCII model) -/

/-- Python whitespace for `str.strip` / `\s` (ASCII fragment): space, tab,
newline, carriage return, vertical tab, form feed. -/
def isSpaceChar (c : Char) : Bool :=
  c = ' ' || c = '\t' || c = '\n' || c = '\r' || c = '\u000B' || c = '\u000C'

/-- ASCII model of Python `str.lower`, as a character list. -/
def lowerL (s : String) : List Char :=
  s.toList.map Char.toLower

/-- `isPre pat l`: `pat` is a prefix of `l` (Python startswith at a position). -/
def isPre : List Char → List Char → Bool
  | [], _ => true
  | _ :: _, [] => false
  | a :: as, b :: bs => (a = b) && isPre as bs

/-- `isSub pat l`: Python `pat in l` substring containment. -/
def isSub (pat : List Char) : List Char → Bool
  | [] => pat.isEmpty
  | c :: rest => isPre pat (c :: rest) || isSub pat rest

/-- `sum(1 for w in ws if w in l)` — how many of the given needles occur in `l`. -/
def wordCount (ws : List String) (l : List Char) : Nat :=
  ws.countP (fun w => isSub w.toList l)

/-- `any(w in l for w in ws)`. -/
def anyWord (ws : List String) (l : List Char) : Bool :=
  ws.any (fun w => isSub w.toList l)

/-- Python `s.count(c)` for a single character. -/
def charCount (c : Char) (s : String) : Nat :=
  s.toList.countP (fun a => a = c)

/-- Python `s.count('```')`: non-overlapping left-to-right occurrences of a
triple backtick fence. -/
def countFence : List Char → Nat
  | '`' :: '`' :: '`' :: rest => countFence rest + 1
  | _ :: rest => countFence rest
  | [] => 0

/-- All leading whitespace removed (the `\s*` step of the regexes). -/
def dropSpaces (l : List Char) : List Char :=
  l.dropWhile isSpaceChar

/-- Numeric value of a digit run. -/
def digitsToNat (ds : List Char) : Nat :=
  ds.foldl (fun a c => a * 10 + (c.toNat - 48)) 0

/-- Python `s.strip()` (ASCII whitespace). -/
def pyStrip (s : String) : String :=
  String.mk (((s.toList.dropWhile isSpaceChar).reverse.dropWhile isSpaceChar).reverse)

/-- Python `s.rstrip()` (ASCII whitespace). -/
def pyRStrip (s : String) : String :=
  String.mk ((s.toList.reverse.dropWhile isSpaceChar).reverse)

/-- Python `bool(s.strip())` is false, i.e. `s` is all whitespace. -/
def isBlank (s : String) : Bool :=
  s.toList.all isSpaceChar

/-! ## The confidence regexes

`re.search(r'confidence:\s*(\d{1,3})%', text)` (validator, display,
notification pattern 1): at some position, the literal `confidence:`, then
whitespace, then 1–3 digits immediately followed by `%`.  Because a digit can
never satisfy the `%` that must follow, the `\d{1,3}` group matches exactly
when the maximal digit run at that point has length 1–3 and is followed by
`%`; there is no other backtracking. -/

/-- `\d{1,3}%` at the head of `l`, returning the captured integer. -/
def digitsPercent123 (l : List Char) : Option Nat :=
  let ds := l.takeWhile Char.isDigit
  if 1 ≤ ds.length && ds.length ≤ 3 && isPre ['%'] (l.drop ds.length) then
    some (digitsToNat ds)
  else none

/-- `\d+%` at the head of `l` (the scorer / unified-posttool pattern body). -/
def digitsPercentPlus (l : List Char) : Bool :=
  let ds := l.takeWhile Char.isDigit
  1 ≤ ds.length && isPre ['%'] (l.drop ds.length)

/-- Leftmost-position search combinator for an `Option`-valued matcher. -/
def scanOpt (tryAt : List Char → Option Nat) : List Char → Option Nat
  | [] => none
  | c :: rest =>
    match tryAt (c :: rest) with
    | some v => some v
    | none => scanOpt tryAt rest

/-- Leftmost-position search combinator for a `Bool`-valued matcher. -/
def scanBool (tryAt : List Char → Bool) : List Char → Bool
  | [] => false
  | c :: rest => tryAt (c :: rest) || scanBool tryAt rest

/-- `confidence:\s*(\d{1,3})%` anchored at the current position. -/
def tryConfColon123 (l : List Char) : Option Nat :=
  if isPre ("confidence:".toList) l then
    digitsPercent123 (dropSpaces (l.drop 11))
  else none

/-- `re.search(r'confidence:\s*(\d{1,3})%', l)`: value of the leftmost match. -/
def findConf (l : List Char) : Option Nat :=
  scanOpt tryConfColon123 l

/-- `confidence:\s*\d+%` anchored at the current position. -/
def tryConfPlus (l : List Char) : Bool :=
  if isPre ("confidence:".toList) l then
    digitsPercentPlus (dropSpaces (l.drop 11))
  else false

/-- `re.search(r'confidence:\s*\d+%', l)` as a boolean (scorer and unified
posttool hooks only test for a match). -/
def hasConfStmt (l : List Char) : Bool :=
  scanBool tryConfPlus l

example : findConf (lowerL "Confidence: 73%") = some 73 := by decide
example : findConf (lowerL "confidence:95% done") = some 95 := by decide
example : findConf (lowerL "confidence: 1234%") = none := by decide
example : findConf (lowerL "no statement here") = none := by decide
example : hasConfStmt (lowerL "Confidence: 1234%") = true := by decide
example : findConf (lowerL "confidence: 5% and confidence: 73%") = some 5 := by
  decide

/-! ## Transcript data model

A transcript is a sequence of lines; `json.loads` on a line either fails
(`LineParse.parseError`, the inner `except json.JSONDecodeError` branch),
succeeds with something that is not a JSON object usable as an event — for
example a bare number, string or array, on which `.get` raises
`AttributeError`, caught only by the reader's outer handler
(`LineParse.badShape`) — or yields an event record.  The `message.content`
value is either absent/empty (modelled `cstr ""`), a string, a list of content
blocks, or some other JSON scalar (`cother` keeps its Python truthiness and
`str()` image; for values produced by `json.loads`, a truthy scalar always has
a non-empty `str()`). -/

inductive Block where
  | textBlock (text : String)
  | strBlock (s : String)
  | otherBlock
  deriving DecidableEq, Repr

inductive Content where
  | cnull
  | cstr (s : String)
  | clist (bs : List Block)
  | cother (truthy : Bool) (str : String)
  deriving DecidableEq, Repr

structure Entry where
  etype : Option String
  role : Option String
  content : Content
  deriving DecidableEq, Repr

inductive LineParse where
  | parseError
  | badShape
  | entry (e : Entry)
  deriving DecidableEq, Repr

/-- Python truthiness of a `content` value. -/
def truthyContent : Content → Bool
  | Content.cnull => false
  | Content.cstr s => s ≠ ""
  | Content.clist bs => !bs.isEmpty
  | Content.cother b _ => b

/-- Text contributed by one block of a list-shaped `content` in the
validator/display reader: mappings with `type == "text"` contribute their
`text` field, bare strings contribute themselves, anything else is skipped. -/
def blockText : Block → Option String
  | Block.textBlock t => some t
  | Block.strBlock s => some s
  | Block.otherBlock => none

namespace Reader

/-- The body of the reader once a type/role-matching entry with truthy content
is reached: the function returns from here in all cases (the scan stops).
List content is flattened and an empty result is converted to `None`; string
content is returned as-is; any other content is `str()`-ified and returned
without an emptiness check. -/
def flattenStop : Content → Option String
  | Content.clist bs =>
    let result := String.intercalate "\n" (bs.filterMap blockText)
    if result = "" then none else some result
  | Content.cstr s => some s
  | Content.cother _ s => some s
  | Content.cnull => none

/-- The selection test of `get_last_assistant_response`: `type == 'assistant'`,
`message.role == 'assistant'`, and `if content:`. -/
def entryUsable (e : Entry) : Bool :=
  (e.etype = some "assistant") && (e.role = some "assistant")
    && truthyContent e.content

/-- One step of the reversed scan over parsed lines.  A JSON-decode failure is
skipped (`continue`); a line whose parse is not an event object raises
`AttributeError`, which only the outer `except Exception` catches, so the
whole function returns `None`. -/
def scanBack : List LineParse → Option String
  | [] => none
  | LineParse.parseError :: rest => scanBack rest
  | LineParse.badShape :: _ => none
  | LineParse.entry e :: rest =>
    if entryUsable e then flattenStop e.content else scanBack rest

/-- `get_last_assistant_response` (confidence-validator.py lines 147–191; the
copy in confidence-score-display.py lines 24–68 is identical).  `none` input
models an unreadable transcript file (the outer handler returns `None`). -/
def get_last_assistant_response : Option (List LineParse) → Option String
  | none => none
  | some lines => scanBack lines.reverse

/-- `LineParse` entries that terminate the reversed scan: a usable assistant
record or an aborting non-object line. -/
def stopsScan (l : LineParse) : Bool :=
  (match l with
   | LineParse.entry e => entryUsable e
   | LineParse.badShape => true
   | LineParse.parseError => false)

end Reader

example :
    Reader.get_last_assistant_response
      (some [LineParse.entry ⟨some "assistant", some "assistant", Content.cstr "hi"⟩]) =
      some "hi" := by decide

example :
    Reader.get_last_assistant_response
      (some [LineParse.entry ⟨some "assistant", some "assistant", Content.cstr "hi"⟩,
             LineParse.badShape]) = none := by decide

example :
    Reader.get_last_assistant_response
      (some [LineParse.entry ⟨some "assistant", some "assistant", Content.cstr "old"⟩,
             LineParse.parseError,
             LineParse.entry ⟨some "assistant", some "assistant",
               Content.clist [Block.textBlock "a", Block.otherBlock, Block.strBlock "b"]⟩]) =
      some "a\nb" := by decide

/-! ## Configuration -/

/-- Typed model of a successfully parsed `clauded-config.json`: each
recognized key may be present or absent (unknown keys are ignored by all
readers). -/
structure ParsedConfig where
  minConfidenceKey : Option Nat
  verboseKey : Option Bool
  lastUpdatedKey : Option String
  deriving DecidableEq, Repr

/-- The dictionary produced by `get_cached_config` after filling missing keys
from `default_config`. -/
structure Config where
  minConfidence : Nat
  verbose : Bool
  lastUpdated : String
  deriving DecidableEq, Repr

/-- The dictionary produced by the display hook `get_config` (its
`default_config` has no `lastUpdated`). -/
structure DisplayConfig where
  minConfidence : Nat
  verbose : Bool
  deriving DecidableEq, Repr

namespace CacheCfg

/-- Module-level `_config_cache` state (`data`, `timestamp`); the TTL is the
constant 30. -/
structure CacheState where
  data : Option Config
  timestamp : Int
  deriving DecidableEq, Repr

/-- `default_config` of config-cache.py; `lastUpdated` is the current wall
clock in ISO form, passed in as `nowIso`. -/
def default_config (nowIso : String) : Config :=
  ⟨50, true, nowIso⟩

/-- Filling missing keys of a parsed config from `default_config`
(`for key, default_value in default_config.items(): ...`). -/
def fillConfig (p : ParsedConfig) (nowIso : String) : Config :=
  ⟨p.minConfidenceKey.getD 50, p.verboseKey.getD true,
   p.lastUpdatedKey.getD nowIso⟩

/-- The shared read path of `get_cached_config` after a cache miss: read the
file (`none` = `FileNotFoundError` / `json.JSONDecodeError` / any other
exception — the three handlers are identical), fill defaults, store into the
cache with the current timestamp, report that a read happened. -/
def readAndCache (now : Int) (nowIso : String) (file : Option ParsedConfig) :
    Config × CacheState × Bool :=
  let config :=
    match file with
    | some p => fillConfig p nowIso
    | none => default_config nowIso
  (config, ⟨some config, now⟩, true)

/-- `get_cached_config` (config-cache.py lines 29–80) as a state transformer:
result value, new cache state, and whether the config source was read. -/
def get_cached_config (now : Int) (nowIso : String) (file : Option ParsedConfig)
    (st : CacheState) : Config × CacheState × Bool :=
  match st.data with
  | some d =>
    if now - st.timestamp < 30 then (d, st, false)
    else readAndCache now nowIso file
  | none => readAndCache now nowIso file

/-- `invalidate_cache` (config-cache.py lines 82–86). -/
def invalidate_cache : CacheState :=
  ⟨none, 0⟩

/-- `is_high_confidence_required` on an already-loaded config
(config-cache.py lines 112–114). -/
def is_high_confidence_required (c : Config) : Bool :=
  c.minConfidence > 80

end CacheCfg

/-! ## Hook decision objects -/

/-- How a confidence value was obtained (spec §3 `ConfidenceEstimate.source`). -/
inductive ConfSource where
  | explicitStmt
  | estimated
  deriving DecidableEq, Repr

/-- The single JSON object (or plain text) a hook prints, if any. -/
inductive Decision where
  | silent
  | block (reason : String)
  | allowContext (ctx : String)
  | approve (msg : String)
  | promptUser (msg : String) (allowContinue : Bool) (defaultAction : String)
  | plain (msg : String)
  deriving DecidableEq, Repr

/-- True for outcomes that print a decision JSON object. -/
def printsDecision : Decision → Bool
  | Decision.block _ => true
  | Decision.allowContext _ => true
  | Decision.approve _ => true
  | Decision.promptUser _ _ _ => true
  | _ => false

/-- True only for block decisions. -/
def isBlockD : Decision → Bool
  | Decision.block _ => true
  | _ => false

/-- `prompt_user` decision with the given `allow_continue`/`default_action`. -/
def isPromptUserWith (d : Decision) (ac : Bool) (da : String) : Bool :=
  match d with
  | Decision.promptUser _ a d0 => (a = ac) && (d0 = da)
  | _ => false

/-- `max(lo, min(hi, x))` followed by the implicit nonnegative-to-Nat reading
of the resulting score. -/
def clampToNat (lo hi x : Int) : Nat :=
  (max lo (min hi x)).toNat

/-! ## UserPromptSubmit validator (src/setup/confidence-validator.py) -/

namespace Validator

def strong_success : List String :=
  ["successfully completed", "working correctly", "fixed the issue", "problem solved"]

def success_words : List String :=
  ["successfully", "completed", "fixed", "working", "done", "resolved"]

def precision_words : List String :=
  ["exactly", "precisely", "specifically", "correct", "accurate"]

def safe_tools : List String := ["Read", "LS", "Grep", "Glob"]

def medium_tools : List String := ["Bash", "WebFetch"]

def risky_tools : List String := ["Edit", "Write", "MultiEdit"]

def strong_uncertainty : List String :=
  ["not sure", "unclear", "uncertain", "i think", "i believe", "i assume"]

def hedging_phrases : List String :=
  ["might", "maybe", "possibly", "probably", "likely", "should work",
   "seems", "appears", "could be", "might be", "try this", "attempt to"]

def error_words : List String := ["error", "issue", "problem", "failed", "broken"]

def solution_words : List String := ["fix", "solve", "resolve", "correct"]

/-- `re.search(r'^[0-9]+\.', response, re.MULTILINE)`: after a line start, one
or more digits followed by a dot.  Scanning a digit run: hitting `.` matches,
hitting a non-digit fails at this line start. -/
def digitsThenDot : List Char → Bool
  | [] => false
  | c :: rest => if c = '.' then true else if c.isDigit then digitsThenDot rest else false

/-- The pattern anchored at one line start. -/
def numberedAtStart : List Char → Bool
  | [] => false
  | c :: rest => c.isDigit && digitsThenDot rest

/-- Line starts after each newline. -/
def numberedAfterNewline : List Char → Bool
  | [] => false
  | '\n' :: rest => numberedAtStart rest || numberedAfterNewline rest
  | _ :: rest => numberedAfterNewline rest

/-- Whether some line of the response begins with `digits.`. -/
def hasNumberedLine (l : List Char) : Bool :=
  numberedAtStart l || numberedAfterNewline l

/-- The raw additive score of `estimate_confidence` before clamping
(confidence-validator.py lines 29–137).  The tool-name checks are
case-sensitive over the original response (`if tool in response`); everything
else is over `response.lower()`. -/
def rawScore (response : String) : Int :=
  let L := lowerL response
  let R := response.toList
  let s1 : Int := 35 + (if anyWord strong_success L then 20 else 0)
  let sc := wordCount success_words L
  let s2 := s1 + (if sc > 0 then ((min (sc * 8) 15 : Nat) : Int) else 0)
  let s3 := s2 + (if anyWord precision_words L then 8 else 0)
  let stc := wordCount safe_tools R
  let s4 := s3 + (if stc > 0 then ((min (stc * 5) 10 : Nat) : Int) else 0)
  let mtc := wordCount medium_tools R
  let s5 := s4 + (if mtc > 0 then ((min (mtc * 8) 15 : Nat) : Int) else 0)
  let rtc := wordCount risky_tools R
  let s6 := s5 + (if rtc > 0 then ((min (rtc * 6) 12 : Nat) : Int) else 0)
  let suc := wordCount strong_uncertainty L
  let s7 := s6 - (if suc > 0 then (suc : Int) * 12 else 0)
  let hc := wordCount hedging_phrases L
  let s8 := s7 - (if hc > 0 then (hc : Int) * 6 else 0)
  let qc := charCount '?' response
  let s9 := s8 - (if qc > 0 then ((min (qc * 4) 12 : Nat) : Int) else 0)
  let ec := wordCount error_words L
  let soc := wordCount solution_words L
  let s10 := s9 - (if ec > soc then ((ec - soc : Nat) : Int) * 8 else 0)
  let s11 := s10 +
    (if response.length < 30 then (-15 : Int)
     else if response.length < 100 then -8
     else if response.length > 1000 then 8 else 0)
  let cb := countFence R
  let s12 := s11 + (if cb > 0 then ((min (cb * 6) 15 : Nat) : Int) else 0)
  s12 + (if hasNumberedLine R then 5 else 0)

/-- `estimate_confidence` (confidence-validator.py lines 24–145): an empty
response scores 35; otherwise the additive score clamped to `[15, 85]`. -/
def estimate_confidence (response : String) : Nat :=
  if response = "" then 35 else clampToNat 15 85 (rawScore response)

/-- Confidence selection of the validator `main` (lines 236–247): the explicit
`confidence: N%` statement if present (unclamped, `source = explicit`),
otherwise the heuristic estimate. -/
def confidence_extraction (response : String) : Nat × ConfSource :=
  match findConf (lowerL response) with
  | some v => (v, ConfSource.explicitStmt)
  | none => (estimate_confidence response, ConfSource.estimated)

/-- Config read of the validator `main` (lines 250–257): `min_confidence`
starts at the fallback 85 and is replaced by `config.get('minConfidence', 50)`
only when the file is read and parsed successfully. -/
def read_min_confidence (file : Option ParsedConfig) : Nat :=
  match file with
  | some p => p.minConfidenceKey.getD 50
  | none => 85

def prompt_message (confidence min_confidence : Nat) : String :=
  "⚠️ 🎯 Claude's confidence is " ++ toString confidence ++
    "% (below your " ++ toString min_confidence ++ "% threshold). Continue anyway?"

def pass_message (confidence min_confidence : Nat) : String :=
  "✅ 🎯 Confidence: " ++ toString confidence ++ "% (meets " ++
    toString min_confidence ++ "% threshold)"

/-- Decision part of the validator `main` (lines 259–278), given the response
text and threshold. -/
def decide_on (response : String) (min_confidence : Nat) : Decision × Nat :=
  let confidence_pct := (confidence_extraction response).1
  if confidence_pct < min_confidence then
    (Decision.promptUser (prompt_message confidence_pct min_confidence) true "block", 0)
  else
    (Decision.plain (pass_message confidence_pct min_confidence), 0)

/-- `main` of confidence-validator.py over its effectful inputs: the transcript
read result and the config-file read result.  A missing/empty response exits
silently; the unused `implementation_keywords` list (dead code, lines 221–224)
is omitted. -/
def main (transcript : Option (List LineParse)) (file : Option ParsedConfig) :
    Decision × Nat :=
  match Reader.get_last_assistant_response transcript with
  | none => (Decision.silent, 0)
  | some response =>
    if response = "" then (Decision.silent, 0)
    else decide_on response (read_min_confidence file)

end Validator

example : Validator.estimate_confidence "" = 35 := by decide
example : Validator.estimate_confidence "ok" = 20 := by decide
example : Validator.confidence_extraction "Confidence: 73% because tests pass" =
    (73, ConfSource.explicitStmt) := by decide
example : Validator.hasNumberedLine ("a\n1. first".toList) = true := by decide
example : Validator.hasNumberedLine ("12x.".toList) = false := by decide

/-! ## Stop hook (src/setup/confidence-score-display.py) -/

namespace Display

/-- `get_config` (lines 70–85): read failure of any kind substitutes
`{'minConfidence': 50, 'verbose': True}`; a parsed file has missing keys
filled from those defaults. -/
def get_config (file : Option ParsedConfig) : DisplayConfig :=
  match file with
  | some p => ⟨p.minConfidenceKey.getD 50, p.verboseKey.getD true⟩
  | none => ⟨50, true⟩

def success_list : List String := ["successfully", "completed", "fixed", "working"]

def error_list : List String := ["error", "failed", "issue", "problem"]

def tool_patterns : List String :=
  ["<function_calls>", "<invoke>", "Read", "Write", "Edit", "Bash"]

def uncertainty_list : List String :=
  ["might", "maybe", "possibly", "unclear", "not sure", "uncertain"]

def commaJoin (ws : List String) : String := String.intercalate ", " ws

/-- The heuristic branch of `calculate_confidence_score` (lines 113–172):
raw additive score paired with the accumulated reason strings, before the
final clamp. -/
def heuristicPass (response : String) : Int × List String :=
  let L := lowerL response
  let R := response.toList
  let sw := success_list.filter (fun w => isSub w.toList L)
  let eh := error_list.filter (fun w => isSub w.toList L)
  let tools := tool_patterns.filter (fun w => isSub w.toList R)
  let ci := (if isSub "```".toList R then ["code blocks"] else []) ++
            (if isSub "function".toList L then ["functions"] else []) ++
            (if isSub "class".toList L then ["classes"] else [])
  let uw := uncertainty_list.filter (fun w => isSub w.toList L)
  let n := response.length
  let score : Int := 50 +
    (if sw.isEmpty then 0 else 15) +
    (if eh.isEmpty then 0 else 10) +
    (if tools.isEmpty then 0 else 20) +
    (if ci.isEmpty then 0 else 15) -
    (if uw.isEmpty then 0 else 20) +
    (if n < 100 then (-10 : Int) else if n > 1000 then 10 else 0)
  let reasons :=
    (if sw.isEmpty then [] else ["Success indicators: " ++ commaJoin sw]) ++
    (if eh.isEmpty then [] else ["Error handling mentioned: " ++ commaJoin eh]) ++
    (if tools.isEmpty then [] else ["Used tools: " ++ commaJoin tools]) ++
    (if ci.isEmpty then [] else ["Technical content: " ++ commaJoin ci]) ++
    (if uw.isEmpty then [] else ["Uncertainty words: " ++ commaJoin uw]) ++
    (if n < 100 then ["Short response (" ++ toString n ++ " chars)"]
     else if n > 1000 then ["Detailed response (" ++ toString n ++ " chars)"]
     else [])
  (score, reasons)

/-- `calculate_confidence_score` (lines 87–172).  An explicit
`confidence: N%` statement is returned unclamped; the heuristic score is
clamped to `[10, 95]`.  (The `verbose_mode` parameter of the Python function
only affects debug logging and is omitted; the config it loads is used only
for logging as well.) -/
def calculate_confidence_score (response : String) : Nat × List String :=
  if response = "" then (50, ["No response content provided"])
  else
    match findConf (lowerL response) with
    | some v => (v, ["Explicit confidence statement found"])
    | none =>
      let p := heuristicPass response
      (clampToNat 10 95 p.1, p.2)

/-- The trivial-response patterns of `main` (lines 207–217), applied to
`response_lower.strip()`.  Each regex is anchored on both sides, so it is a
whole-string test; the last pattern accepts any string without ASCII letters. -/
def isTrivial (t : String) : Bool :=
  t = "yes" || t = "yes." || t = "no" || t = "no." ||
  t = "ok" || t = "ok." || t = "okay" || t = "okay." ||
  t = "thank" || t = "thank." || t = "thanks" || t = "thanks." ||
  t = "thank you" || t = "thank you." ||
  t.toList.all (fun c => !(('a' ≤ c && c ≤ 'z') || ('A' ≤ c && c ≤ 'Z')))

/-- Verbose confidence display (lines 235–255).  The wall-clock processing
time and the float token estimate are environment-dependent and are passed in
as the preformatted `perfInfo`/`costInfo` strings. -/
def confidenceDisplay (score : Nat) (reasoning : List String) (verbose : Bool)
    (perfInfo costInfo : String) : String :=
  if verbose then
    let base :=
      if reasoning.isEmpty then
        "\n\n🎯 Confidence: " ++ toString score ++ "% 🎯\n"
      else
        "\n\n🎯 Confidence: " ++ toString score ++ "% 🎯\nBased on: " ++
          (" • " ++ String.intercalate "\n • " reasoning) ++ "\n"
    pyRStrip base ++ "\n" ++ perfInfo ++ " | " ++ costInfo ++ "\n"
  else
    "\n\n🎯 Confidence: " ++ toString score ++ "% 🎯\n"

/-- Decision part of the Stop-hook `main` (lines 196–261) on the extracted
response text. -/
def decide_on (response : String) (cfg : DisplayConfig) (perfInfo costInfo : String) :
    Decision × Nat :=
  if isSub ("confidence:".toList) (lowerL response) && response.toList.contains '%' then
    (Decision.silent, 0)
  else if isTrivial (pyStrip (String.mk (lowerL response))) then
    (Decision.silent, 0)
  else if (pyStrip response).length < 20 then
    (Decision.silent, 0)
  else
    let p := calculate_confidence_score response
    (Decision.plain (confidenceDisplay p.1 p.2 cfg.verbose perfInfo costInfo), 0)

/-- `main` of confidence-score-display.py over its effectful inputs. -/
def main (transcript : Option (List LineParse)) (file : Option ParsedConfig)
    (perfInfo costInfo : String) : Decision × Nat :=
  match Reader.get_last_assistant_response transcript with
  | none => (Decision.silent, 0)
  | some response =>
    if response = "" then (Decision.silent, 0)
    else decide_on response (get_config file) perfInfo costInfo

end Display

example : (Display.calculate_confidence_score "Confidence: 120% sure").1 = 120 := by
  decide
example : Display.isTrivial "ok." = true := by decide
example : Display.isTrivial "!!! 123" = true := by decide
example : Display.isTrivial "okey" = false := by decide
example :
    Display.decide_on "I am Confident: yes 100%s confidence: here 5%" ⟨50, true⟩ "p" "c" =
      (Decision.silent, 0) := by decide

/-! ## Risk levels and tool calls -/

/-- `{'none','low','medium','high'}` as used by the PostToolUse hooks. -/
inductive Risk where
  | nothing
  | low
  | medium
  | high
  deriving DecidableEq, Repr

/-- The name string Python interpolates for a risk level. -/
def riskName : Risk → String
  | Risk.nothing => "none"
  | Risk.low => "low"
  | Risk.medium => "medium"
  | Risk.high => "high"

/-- One element of a `tool_calls` list; the scorer reads
`tool_call.get('function', {}).get('name', '')`. -/
structure ToolCall where
  functionName : String
  deriving DecidableEq, Repr

/-- `response.get('content', '')` handling shared by confidence-scorer.py
(lines 113–120) and confidence-unified-posttool.py (lines 159–166): a string
is used as-is, a list keeps only mapping blocks with `type == 'text'` (bare
strings are dropped here, unlike in the transcript reader), and any other
value later raises on `.strip()`, landing in the catch-all handler (`none`).
An absent `content` key is the default `''`. -/
def postContentText : Content → Option String
  | Content.cstr s => some s
  | Content.clist bs =>
    some (String.intercalate "\n"
      (bs.filterMap (fun b =>
        match b with
        | Block.textBlock t => some t
        | _ => none)))
  | Content.cnull => none
  | Content.cother _ _ => none

/-! ## PostToolUse scorer (src/setup/confidence-scorer.py) -/

namespace Scorer

def high_risk_tools : List String :=
  ["edit", "write", "multiedit", "delete", "bash", "remove", "move",
   "notebookedit", "rm ", "mv ", "cp -f"]

def medium_risk_tools : List String :=
  ["webfetch", "task", "commit", "push", "git "]

def low_risk_tools : List String :=
  ["read", "grep", "glob", "ls", "notebookread"]

def suggestion_keywords : List String :=
  ["suggest", "recommend", "should", "could", "would", "consider",
   "improve", "fix", "change", "update", "modify", "implement",
   "propose", "add", "remove", "replace", "refactor", "optimize"]

/-- The `for tool_call in tool_calls` loop of `analyze_operation_risk`
(lines 55–64): a high-risk tool name breaks out immediately; a medium-risk
name overwrites the accumulator without breaking; a low-risk name is recorded
only while the accumulator is still `none`. -/
def toolCallRisk : Risk → List ToolCall → Risk
  | acc, [] => acc
  | acc, t :: rest =>
    let nl := lowerL t.functionName
    if anyWord high_risk_tools nl then Risk.high
    else if anyWord medium_risk_tools nl then toolCallRisk Risk.medium rest
    else if acc = Risk.nothing && anyWord low_risk_tools nl then
      toolCallRisk Risk.low rest
    else toolCallRisk acc rest

/-- Per-level substring counts and the tool-call accumulator
(`analyze_operation_risk` return details, lines 85–90). -/
structure RiskDetails where
  high_risk_count : Nat
  medium_risk_count : Nat
  low_risk_count : Nat
  tool_call_risk : Risk
  deriving DecidableEq, Repr

/-- `analyze_operation_risk` (lines 23–90). -/
def analyze_operation_risk (response_content : String) (tool_calls : List ToolCall) :
    Risk × RiskDetails :=
  let L := lowerL response_content
  let hc := wordCount high_risk_tools L
  let mc := wordCount medium_risk_tools L
  let lc := wordCount low_risk_tools L
  let tr := toolCallRisk Risk.nothing tool_calls
  let risk :=
    if hc > 0 || tr = Risk.high then Risk.high
    else if mc > 0 || tr = Risk.medium then Risk.medium
    else if lc > 0 || tr = Risk.low || tool_calls.length > 0 then Risk.low
    else if anyWord suggestion_keywords L then Risk.low
    else Risk.nothing
  (risk, ⟨hc, mc, lc, tr⟩)

/-- Risk computation of `main` (lines 142–151): a non-blank direct `tool_name`
is analyzed through a synthetic single-element tool-call list over the text
`"Used tool: <name>"`; otherwise the response content and `tool_calls` list
are analyzed. -/
def riskOf (content : String) (tool_calls : List ToolCall) (tool_name : String) : Risk :=
  if !(isBlank tool_name) then
    (analyze_operation_risk ("Used tool: " ++ tool_name) [⟨tool_name⟩]).1
  else
    (analyze_operation_risk content tool_calls).1

def block_reason : String :=
  "🎯 **MANDATORY CONFIDENCE REQUIRED**\n\nThis operation involves high-risk changes (file edits, system commands, deletions).\n\n**Please add explicit confidence to your response:**\n`Confidence: X% - [your reasoning]`\n\n**Then submit your response again.**"

def medium_request : String :=
  "\n\n⚠️ 🎯 **CONFIDENCE ASSESSMENT REQUESTED**\n\nThis operation has medium risk. Please evaluate your confidence:\n**Confidence: X% - [your reasoning]**"

def low_request : String :=
  "\n\n💭 **Optional:** Consider adding confidence assessment:\n**Confidence: X% - [your reasoning]**"

/-- `main` of confidence-scorer.py (lines 92–202) over its stdin-derived
inputs.  A content value that raises on `.strip()` reaches the catch-all
handler and exits 0 silently. -/
def main (rc : Content) (tool_calls : List ToolCall) (tool_name : String) :
    Decision × Nat :=
  match postContentText rc with
  | none => (Decision.silent, 0)
  | some content =>
    if isBlank content && isBlank tool_name then (Decision.silent, 0)
    else if !(isBlank content) && hasConfStmt (lowerL content) then (Decision.silent, 0)
    else
      match riskOf content tool_calls tool_name with
      | Risk.nothing => (Decision.silent, 0)
      | Risk.high => (Decision.block block_reason, 1)
      | Risk.medium => (Decision.allowContext medium_request, 0)
      | Risk.low => (Decision.allowContext low_request, 0)

end Scorer

example : (Scorer.analyze_operation_risk "I will edit the file" []).1 = Risk.high := by
  decide
example : (Scorer.analyze_operation_risk "fetch it with webfetch" []).1 = Risk.medium := by
  decide
example : (Scorer.analyze_operation_risk "nothing at all here" []).1 = Risk.nothing := by
  decide
example : (Scorer.analyze_operation_risk "nothing at all here" [⟨"X"⟩]).1 = Risk.low := by
  decide
example : Scorer.main (Content.cstr "") [] "Read" =
    (Decision.allowContext Scorer.low_request, 0) := by decide
example : Scorer.main (Content.cstr "") [] "Edit" =
    (Decision.block Scorer.block_reason, 1) := by decide
example : Scorer.main (Content.cstr "Confidence: 80% done editing") [] "Edit" =
    (Decision.silent, 0) := by decide

/-! ## Unified PostToolUse hook (src/setup/confidence-unified-posttool.py)

Its `get_config`/`get_verbose_mode` go through `get_cached_config`, modelled
separately above; `main` below takes the resulting `Config`.  Both calls
happen inside one invocation, so the second is served from the cache it just
populated and yields the same configuration.  The `contains_suggestions`
helper is defined in the source but never called by `main` (the hook comments
it now always shows confidence), so it is not modelled. -/

namespace UnifiedPost

def high_risk_keywords : List String :=
  ["delete", "remove", "rm ", "unlink", "drop", "truncate",
   "format", "wipe", "destroy", "kill", "terminate",
   "sudo", "chmod", "chown", "mv ", "move"]

def medium_risk_keywords : List String :=
  ["edit", "modify", "change", "update", "replace",
   "install", "config", "settings", "deploy"]

/-- `assess_risk_level` (lines 76–103).  Note it never returns `none`: the
fall-through is `'low'`. -/
def assess_risk_level (response_content : String) (tool_calls : List ToolCall) : Risk :=
  let L := if response_content = "" then [] else lowerL response_content
  if anyWord high_risk_keywords L then Risk.high
  else if anyWord medium_risk_keywords L then Risk.medium
  else if tool_calls.length > 3 then Risk.medium
  else Risk.low

def unified_success : List String := ["successfully", "completed", "working", "fixed"]

def unified_uncertain : List String := ["might", "maybe", "possibly", "not sure"]

def unified_errorish : List String := ["error", "failed", "problem", "issue"]

/-- Raw additive score of the unified hook `estimate_confidence`
(lines 112–134) before clamping. -/
def rawScore (response_content : String) (tool_calls : List ToolCall) : Int :=
  let L := lowerL response_content
  let s1 : Int := 60 + (if tool_calls.length > 0 then 15 else 0)
  let s2 := s1 + (if anyWord unified_success L then 10 else 0)
  let s3 := s2 - (if anyWord unified_uncertain L then 15 else 0)
  s3 + (if response_content.length > 500 then 5
        else if response_content.length < 50 then -10 else 0)

/-- `estimate_confidence` (lines 105–140; the Python function also receives
the config dict but never uses it): empty content scores the neutral 50,
otherwise the additive score clamped to `[30, 85]`. -/
def estimate_confidence (response_content : String) (tool_calls : List ToolCall) : Nat :=
  if response_content = "" then 50
  else clampToNat 30 85 (rawScore response_content tool_calls)

/-- The `confidence_msg` assembly of `main` (lines 194–232).  The odd bullet
and target glyphs are the literal (mojibake) bytes of the source file. -/
def confidence_msg (est : Nat) (response_content : String)
    (tool_calls : List ToolCall) (risk : Risk) (verbose : Bool) : String :=
  let base := "ðŸŽ¯ Confidence: " ++ toString est ++ "% ðŸŽ¯"
  let withReasons :=
    if verbose then
      let L := lowerL response_content
      let r1 :=
        if tool_calls.length > 0 then
          (if tool_calls.length = 1 then ["â€¢ Taking concrete action with tool usage"]
           else ["â€¢ Performing " ++ toString tool_calls.length ++
                 " operations systematically"])
        else []
      let r2 := if anyWord unified_success L then
                  ["â€¢ Expressing completion or success"] else []
      let r3 := if anyWord unified_uncertain L then
                  ["â€¢ Contains uncertainty language"] else []
      let r4 := if anyWord unified_errorish L then
                  ["â€¢ Discussing problems or failures"] else []
      let r5 := if response_content.length > 500 then
                  ["â€¢ Providing comprehensive explanation"]
                else if response_content.length < 50 then
                  ["â€¢ Very brief response may lack detail"]
                else []
      let r6 := if hasConfStmt L then
                  ["â€¢ Includes explicit confidence assessment"] else []
      let reasons := r1 ++ r2 ++ r3 ++ r4 ++ r5 ++ r6
      if reasons.isEmpty then base
      else base ++ "\nBased on:  " ++ String.intercalate " " reasons
    else base
  if risk = Risk.medium || risk = Risk.high then
    withReasons ++ " (Risk: " ++ riskName risk ++ ")"
  else withReasons

def block_reason : String :=
  "ðŸŽ¯ **MANDATORY CONFIDENCE REQUIRED**\n\nThis operation involves high-risk changes (file edits, system commands, deletions).\n\n**Please add explicit confidence to your response:**\n`Confidence: X% - [your reasoning]`\n\n**Then submit your response again.**"

/-- `main` of confidence-unified-posttool.py (lines 142–255) over its
stdin-derived inputs and the cached configuration. -/
def main (rc : Content) (tool_calls : List ToolCall) (config : Config) :
    Decision × Nat :=
  match postContentText rc with
  | none => (Decision.silent, 0)
  | some content =>
    if isBlank content then (Decision.silent, 0)
    else if hasConfStmt (lowerL content) then (Decision.silent, 0)
    else
      let risk := assess_risk_level content tool_calls
      let est := estimate_confidence content tool_calls
      let msg := confidence_msg est content tool_calls risk config.verbose
      if risk = Risk.high && est < config.minConfidence then
        (Decision.block block_reason, 1)
      else
        (Decision.approve msg, 0)

end UnifiedPost

example : UnifiedPost.assess_risk_level "please update the docs" [] = Risk.medium := by
  decide
example : UnifiedPost.assess_risk_level "delete it and update docs" [] = Risk.high := by
  decide
example : UnifiedPost.assess_risk_level "hello" [⟨"a"⟩, ⟨"b"⟩, ⟨"c"⟩, ⟨"d"⟩] =
    Risk.medium := by decide
example : UnifiedPost.estimate_confidence "delete done successfully" [] = 60 := by decide
example : UnifiedPost.estimate_confidence "delete it maybe" [] = 35 := by decide
example :
    (UnifiedPost.main (Content.cstr "delete it maybe") [] ⟨50, true, "t"⟩).2 = 1 := by
  decide
example :
    isBlockD (UnifiedPost.main (Content.cstr "delete done successfully") []
      ⟨50, true, "t"⟩).1 = false := by decide

/-! ## Notification hook
(src/test-install/src/setup/confidence-notification-hook.py) -/

namespace Notif

/-- `get_config` (lines 24–35): only `minConfidence` is extracted; any read
failure falls back to 50. -/
def get_config (file : Option ParsedConfig) : Nat :=
  match file with
  | some p => p.minConfidenceKey.getD 50
  | none => 50

/-- The string conversion shared by `extract_confidence_from_response` and
`estimate_confidence` (lines 42–53): list content keeps `type == 'text'`
mapping blocks and bare strings; non-string scalars are `str()`-ified. -/
def contentToText : Content → String
  | Content.cstr s => s
  | Content.clist bs => String.intercalate "\n" (bs.filterMap blockText)
  | Content.cother _ s => s
  | Content.cnull => "None"

/-- Pattern 2, `confidence\s*[:\-]\s*(\d{1,3})%`, anchored at a position. -/
def tryConfDash (l : List Char) : Option Nat :=
  if isPre ("confidence".toList) l then
    match dropSpaces (l.drop 10) with
    | [] => none
    | c :: rest =>
      if c = ':' || c = '-' then digitsPercent123 (dropSpaces rest)
      else none
  else none

/-- Pattern 3, `(\d{1,3})%\s*confident`, anchored at a position. -/
def tryPercentConfident (l : List Char) : Option Nat :=
  match digitsPercent123 l with
  | some v =>
    let ds := (l.takeWhile Char.isDigit).length
    if isPre ("confident".toList) (dropSpaces (l.drop (ds + 1))) then some v
    else none
  | none => none

/-- `extract_confidence_from_response` (lines 37–71): the three patterns are
tried in order over the lowered text; the first pattern with a match anywhere
supplies the value. -/
def extract_confidence (content : Content) : Option Nat :=
  if truthyContent content = false then none
  else
    let L := lowerL (contentToText content)
    match scanOpt tryConfColon123 L with
    | some v => some v
    | none =>
      match scanOpt tryConfDash L with
      | some v => some v
      | none => scanOpt tryPercentConfident L

def notif_success : List String :=
  ["successfully", "completed", "fixed", "working", "done"]

def notif_precise : List String := ["correct", "accurate", "precise", "exactly"]

def notif_uncertain : List String :=
  ["might", "maybe", "possibly", "unclear", "not sure", "uncertain",
   "probably", "likely"]

def notif_hedging : List String :=
  ["seems", "appears", "could be", "might be", "should work", "try"]

/-- Raw additive score of the notification `estimate_confidence`
(lines 90–126) before clamping. -/
def rawScore (s : String) (tool_calls : List ToolCall) : Int :=
  let L := lowerL s
  let s1 : Int := 50 + (if anyWord notif_success L then 15 else 0)
  let s2 := s1 + (if anyWord notif_precise L then 10 else 0)
  let s3 := s2 + (if tool_calls.length > 0 then 20 else 0)
  let s4 := s3 +
    (if isSub "```".toList s.toList || isSub "function".toList L ||
        isSub "class".toList L then 10 else 0)
  let s5 := s4 - (wordCount notif_uncertain L : Int) * 5
  let s6 := s5 - (wordCount notif_hedging L : Int) * 3
  s6 + (if s.length < 50 then (-15 : Int) else 0) +
    (if s.length > 500 then 10 else 0)

/-- `estimate_confidence` (lines 73–131): falsy content scores the neutral 50,
otherwise the additive score over the flattened text clamped to `[10, 95]`. -/
def estimate_confidence (content : Content) (tool_calls : List ToolCall) : Nat :=
  if truthyContent content = false then 50
  else clampToNat 10 95 (rawScore (contentToText content) tool_calls)

/-- `should_show_warning` (lines 133–149): explicit confidence is compared
directly against the threshold; an estimate is compared against the threshold
minus a buffer of 10 (Python integer arithmetic, so the buffered threshold may
be negative). -/
def should_show_warning (content : Content) (tool_calls : List ToolCall)
    (min_confidence : Nat) : Bool × Nat :=
  match extract_confidence content with
  | some e => (decide (e < min_confidence), e)
  | none =>
    let est := estimate_confidence content tool_calls
    (decide ((est : Int) < (min_confidence : Int) - 10), est)

def warning_message (confidence min_confidence : Nat) : String :=
  "⚠️  Claude's confidence is " ++ toString confidence ++ "% (below your " ++
    toString min_confidence ++ "% threshold). Continue anyway?"

/-- The second disjunct of the skip test of `main` (line 170):
`isinstance(content, str) and len(content.strip()) < 10`. -/
def tooShortContent : Content → Bool
  | Content.cstr s => decide ((pyStrip s).length < 10)
  | _ => false

/-- `main` of confidence-notification-hook.py (lines 151–206) over its
stdin-derived inputs.  Content that is falsy, or a string whose stripped
length is under 10, is skipped (the length test applies only to string
content). -/
def main (content : Content) (tool_calls : List ToolCall)
    (file : Option ParsedConfig) : Decision × Nat :=
  if truthyContent content = false || tooShortContent content then
    (Decision.silent, 0)
  else
    let min_confidence := get_config file
    let w := should_show_warning content tool_calls min_confidence
    if w.1 then
      (Decision.promptUser (warning_message w.2 min_confidence) true "continue", 0)
    else (Decision.silent, 0)

end Notif

example : Notif.extract_confidence (Content.cstr "I am 85% confident here") =
    some 85 := by decide
example : Notif.extract_confidence (Content.cstr "Confidence - 40% maybe") =
    some 40 := by decide
example : Notif.extract_confidence (Content.cstr "no statement") = none := by decide
example : Notif.estimate_confidence
    (Content.cstr "not sure maybe unclear possibly wrong guess here ok today") [] = 30 := by
  decide
example :
    Notif.main (Content.cstr "not sure maybe unclear possibly wrong guess here ok today")
      [] none =
      (Decision.promptUser (Notif.warning_message 30 50) true "continue", 0) := by
  decide

/-! ## Helper lemmas -/

/-- `clampToNat lo hi` lands in `[lo, hi]` whenever `lo ≤ hi`. -/
theorem clampToNat_bounds (lo hi x : Int) (hlh : lo ≤ hi) :
    lo.toNat ≤ clampToNat lo hi x ∧ clampToNat lo hi x ≤ hi.toNat := by
  unfold clampToNat
  constructor
  · exact Int.toNat_le_toNat (le_max_left lo (min hi x))
  · exact Int.toNat_le_toNat (max_le hlh (min_le_left hi x))

/-- A needle list with a witness occurring in `l` gives a positive
`wordCount`. -/
theorem wordCount_pos (ws : List String) (l : List Char)
    (h : anyWord ws l = true) : 0 < wordCount ws l := by
  unfold anyWord at h
  unfold wordCount
  rw [List.any_eq_true] at h
  obtain ⟨w, hw, hsub⟩ := h
  exact List.countP_pos_iff.mpr ⟨w, hw, hsub⟩

/-- Whitespace characters are unchanged by `Char.toLower`. -/
theorem toLower_space (c : Char) (h : isSpaceChar c = true) :
    isSpaceChar (Char.toLower c) = true := by
  simp only [isSpaceChar, Bool.or_eq_true, decide_eq_true_eq] at h
  rcases h with ((((h | h) | h) | h) | h) | h <;> subst h <;> decide

/-- The literal `confidence:` can not start at a whitespace character. -/
theorem tryConfPlus_space (c : Char) (l : List Char) (h : isSpaceChar c = true) :
    tryConfPlus (c :: l) = false := by
  have hc : ¬(c = 'c') := by
    intro he
    subst he
    exact absurd h (by decide)
  have hp : isPre ("confidence:".toList) (c :: l) = false := by
    show (decide ('c' = c) && isPre ("onfidence:".toList) l) = false
    rw [decide_eq_false (fun he => hc he.symm)]
    exact Bool.false_and _
  unfold tryConfPlus
  rw [hp]
  rfl

/-- An all-whitespace character list contains no confidence statement. -/
theorem hasConfStmt_space (l : List Char) (h : l.all isSpaceChar = true) :
    hasConfStmt l = false := by
  induction l with
  | nil => rfl
  | cons c t ih =>
    rw [List.all_cons, Bool.and_eq_true] at h
    show (tryConfPlus (c :: t) || scanBool tryConfPlus t) = false
    rw [tryConfPlus_space c t h.1, Bool.false_or]
    exact ih h.2

/-- A blank response has no confidence statement after lowering. -/
theorem hasConf_blank (s : String) (hb : isBlank s = true) :
    hasConfStmt (lowerL s) = false := by
  apply hasConfStmt_space
  unfold lowerL
  rw [List.all_map]
  unfold isBlank at hb
  rw [List.all_eq_true] at hb ⊢
  intro x hx
  exact toLower_space x (hb x hx)

/-- Contrapositive form used by the scorer branch analyses. -/
theorem hasConf_nonblank (s : String) (h : hasConfStmt (lowerL s) = true) :
    isBlank s = false := by
  cases hb : isBlank s with
  | false => rfl
  | true => rw [hasConf_blank s hb] at h; cases h

/-- The reversed transcript scan is the first scan-stopping line, with a
usable entry flattened and an aborting line producing `None`. -/
theorem scanBack_eq_find (r : List LineParse) :
    Reader.scanBack r =
      (match List.find? Reader.stopsScan r with
       | some (LineParse.entry e) => Reader.flattenStop e.content
       | some LineParse.badShape => none
       | some LineParse.parseError => none
       | none => none) := by
  induction r with
  | nil => rfl
  | cons c t ih =>
    cases c with
    | parseError =>
      rw [List.find?_cons]
      show Reader.scanBack t = _
      rw [ih]
      rfl
    | badShape =>
      rw [List.find?_cons]
      rfl
    | entry e =>
      rw [List.find?_cons]
      cases hu : Reader.entryUsable e with
      | true =>
        show (if Reader.entryUsable e then Reader.flattenStop e.content
              else Reader.scanBack t) = _
        rw [hu]
        show Reader.flattenStop e.content = _
        have hs : Reader.stopsScan (LineParse.entry e) = true := by
          unfold Reader.stopsScan
          exact hu
        rw [hs]
      | false =>
        show (if Reader.entryUsable e then Reader.flattenStop e.content
              else Reader.scanBack t) = _
        rw [hu]
        have hs : Reader.stopsScan (LineParse.entry e) = false := by
          unfold Reader.stopsScan
          exact hu
        rw [hs]
        show Reader.scanBack t = _
        rw [ih]

/-! ## Claim C1 -/

/-- C1, counterexample.  The text contains the literal pattern
`confidence: 73%`, yet the Confidence Estimator returns 5, not 73:
`re.search` yields the leftmost match, so an earlier explicit statement wins
and the estimator is not independent of the other content. -/
theorem c1_counterexample :
    isSub ("confidence: 73%".toList)
        (lowerL "Confidence: 5% at first, later Confidence: 73%") = true ∧
      Validator.confidence_extraction "Confidence: 5% at first, later Confidence: 73%" =
        (5, ConfSource.explicitStmt) ∧
      (Validator.confidence_extraction
        "Confidence: 5% at first, later Confidence: 73%").1 ≠ 73 ∧
      (Display.calculate_confidence_score
        "Confidence: 5% at first, later Confidence: 73%").1 = 5 := by
  refine ⟨by decide, by decide, by decide, by decide⟩

/-- C1, amended.  Whenever the lowered text has a `confidence: N%` match, the
Confidence Estimator of the validator returns the value of the leftmost match
unclamped with source `explicit`, taking priority over heuristic scoring; the
display hook's scorer returns the same value with the single reason
`"Explicit confidence statement found"`.  In particular a text whose leftmost
(e.g. only) explicit statement is `confidence: 73%` yields exactly 73. -/
theorem c1_first_match_wins (t : String) (v : Nat)
    (h : findConf (lowerL t) = some v) :
    Validator.confidence_extraction t = (v, ConfSource.explicitStmt) ∧
      Display.calculate_confidence_score t =
        (v, ["Explicit confidence statement found"]) := by
  constructor
  · unfold Validator.confidence_extraction
    rw [h]
  · unfold Display.calculate_confidence_score
    have hne : ¬(t = "") := by
      intro he
      subst he
      have h0 : findConf (lowerL "") = none := rfl
      rw [h0] at h
      cases h
    rw [if_neg hne, h]

/-- C1 witness: `confidence: 73%` as the only statement, with other content
around it. -/
theorem c1_witness :
    findConf (lowerL "All tests pass. Confidence: 73% - verified by run.") = some 73 ∧
      Validator.confidence_extraction
        "All tests pass. Confidence: 73% - verified by run." =
        (73, ConfSource.explicitStmt) :=
  ⟨by decide,
   (c1_first_match_wins "All tests pass. Confidence: 73% - verified by run." 73
     (by decide)).1⟩

/-! ## Claim C3 -/

/-- C3.  Heuristic confidence scores always lie inside the per-hook clamp
bounds, for any input text, content and tool-call list: the validator
estimator in `[15, 85]`, the display scorer (when the text has no explicit
statement) in `[10, 95]`, the unified PostToolUse estimator in `[30, 85]`,
and the notification estimator in `[10, 95]`. -/
theorem c3_heuristic_clamped (r s t : String) (c : Content)
    (tc tc2 : List ToolCall) (hs : findConf (lowerL s) = none) :
    (15 ≤ Validator.estimate_confidence r ∧ Validator.estimate_confidence r ≤ 85) ∧
    (10 ≤ (Display.calculate_confidence_score s).1 ∧
      (Display.calculate_confidence_score s).1 ≤ 95) ∧
    (30 ≤ UnifiedPost.estimate_confidence t tc ∧
      UnifiedPost.estimate_confidence t tc ≤ 85) ∧
    (10 ≤ Notif.estimate_confidence c tc2 ∧ Notif.estimate_confidence c tc2 ≤ 95) := by
  refine ⟨?_, ?_, ?_, ?_⟩
  · unfold Validator.estimate_confidence
    split
    · exact ⟨by decide, by decide⟩
    · exact clampToNat_bounds 15 85 (Validator.rawScore r) (by norm_num)
  · unfold Display.calculate_confidence_score
    split
    · exact ⟨by decide, by decide⟩
    · rw [hs]
      exact clampToNat_bounds 10 95 (Display.heuristicPass s).1 (by norm_num)
  · unfold UnifiedPost.estimate_confidence
    split
    · exact ⟨by decide, by decide⟩
    · exact clampToNat_bounds 30 85 (UnifiedPost.rawScore t tc) (by norm_num)
  · unfold Notif.estimate_confidence
    split
    · exact ⟨by decide, by decide⟩
    · exact clampToNat_bounds 10 95
        (Notif.rawScore (Notif.contentToText c) tc2) (by norm_num)

/-- C3 witness at concrete inputs. -/
theorem c3_witness :
    findConf (lowerL "hello there friend") = none ∧
      15 ≤ Validator.estimate_confidence "short?" ∧
      (Display.calculate_confidence_score "hello there friend").1 ≤ 95 :=
  ⟨by decide,
   (c3_heuristic_clamped "short?" "hello there friend" "x" Content.cnull [] []
     (by decide)).1.1,
   (c3_heuristic_clamped "short?" "hello there friend" "x" Content.cnull [] []
     (by decide)).2.1.2⟩

/-! ## Claim C4 -/

/-- C4.  A text containing a HIGH-vocabulary term and a MEDIUM-vocabulary
term classifies as HIGH in both risk classifiers: the vocabularies are tested
in descending severity order and the first (highest) match wins. -/
theorem c4_priority_order (content : String) (tc tc2 : List ToolCall)
    (hH : anyWord UnifiedPost.high_risk_keywords (lowerL content) = true)
    (hM : anyWord UnifiedPost.medium_risk_keywords (lowerL content) = true)
    (hS : anyWord Scorer.high_risk_tools (lowerL content) = true) :
    UnifiedPost.assess_risk_level content tc = Risk.high ∧
      (Scorer.analyze_operation_risk content tc2).1 = Risk.high := by
  have hne : ¬(content = "") := by
    intro he
    subst he
    have h0 : anyWord UnifiedPost.high_risk_keywords (lowerL "") = false := by decide
    rw [h0] at hH
    cases hH
  constructor
  · unfold UnifiedPost.assess_risk_level
    rw [if_neg hne]
    simp [hH]
  · have hpos : 0 < wordCount Scorer.high_risk_tools (lowerL content) :=
      wordCount_pos _ _ hS
    unfold Scorer.analyze_operation_risk
    have hcond :
        (decide (wordCount Scorer.high_risk_tools (lowerL content) > 0) ||
          decide (Scorer.toolCallRisk Risk.nothing tc2 = Risk.high)) = true := by
      rw [decide_eq_true hpos]
      exact Bool.true_or _
    simp only [hcond, if_true]

/-- C4 witness: "delete" (HIGH in both vocabularies) together with "update"
(MEDIUM). -/
theorem c4_witness :
    anyWord UnifiedPost.high_risk_keywords (lowerL "please delete and update it") = true ∧
      UnifiedPost.assess_risk_level "please delete and update it" [] = Risk.high ∧
      (Scorer.analyze_operation_risk "please delete and update it" []).1 = Risk.high :=
  ⟨by decide,
   (c4_priority_order "please delete and update it" [] [] (by decide) (by decide)
     (by decide)).1,
   (c4_priority_order "please delete and update it" [] [] (by decide) (by decide)
     (by decide)).2⟩

/-! ## Claim C2 -/

/-- C2, counterexample.  In the unified PostToolUse hook the text
`"delete done successfully"` classifies as HIGH risk and carries no explicit
confidence statement — the claim antecedent holds — yet the hook emits an
`approve` decision with exit code 0, because its estimated confidence (60) is
not below the threshold (50): a HIGH-risk message without explicit confidence
is not blocked. -/
theorem c2_counterexample :
    UnifiedPost.assess_risk_level "delete done successfully" [] = Risk.high ∧
      hasConfStmt (lowerL "delete done successfully") = false ∧
      isBlockD (UnifiedPost.main (Content.cstr "delete done successfully") []
        ⟨50, true, "t"⟩).1 = false ∧
      (UnifiedPost.main (Content.cstr "delete done successfully") []
        ⟨50, true, "t"⟩).2 = 0 := by
  refine ⟨by decide, by decide, by decide, by decide⟩

/-- C2, amended.  The scorer hook blocks (decision `block`, exit 1) whenever
the computed risk is HIGH and no explicit confidence statement is present
(given there is content or a tool name to analyze).  The unified PostToolUse
hook additionally requires the estimated confidence to be below the
configured threshold before blocking; explicit confidence present always
short-circuits both hooks to a silent skip instead. -/
theorem c2_high_risk_blocks
    (rc rc2 : Content) (content content2 : String) (tc tc2 : List ToolCall)
    (tn : String) (config : Config)
    (h1 : postContentText rc = some content)
    (h2 : isBlank content = false ∨ isBlank tn = false)
    (h3 : hasConfStmt (lowerL content) = false)
    (h4 : Scorer.riskOf content tc tn = Risk.high)
    (h5 : postContentText rc2 = some content2)
    (h6 : isBlank content2 = false)
    (h7 : hasConfStmt (lowerL content2) = false)
    (h8 : UnifiedPost.assess_risk_level content2 tc2 = Risk.high)
    (h9 : UnifiedPost.estimate_confidence content2 tc2 < config.minConfidence) :
    Scorer.main rc tc tn = (Decision.block Scorer.block_reason, 1) ∧
      UnifiedPost.main rc2 tc2 config = (Decision.block UnifiedPost.block_reason, 1) := by
  constructor
  · unfold Scorer.main
    rw [h1]
    have hfirst : (isBlank content && isBlank tn) = false := by
      rcases h2 with h | h <;> simp [h]
    simp [hfirst, h3, h4]
  · unfold UnifiedPost.main
    rw [h5]
    simp [h6, h7, h8, h9]

/-- C2 witness: a shell-removal response for the scorer and a low-confidence
deletion response for the unified hook. -/
theorem c2_witness :
    Scorer.riskOf "ran rm -rf on the temp dir" [] "" = Risk.high ∧
      hasConfStmt (lowerL "delete it maybe") = false ∧
      Scorer.main (Content.cstr "ran rm -rf on the temp dir") [] "" =
        (Decision.block Scorer.block_reason, 1) ∧
      UnifiedPost.main (Content.cstr "delete it maybe") [] ⟨50, true, "t"⟩ =
        (Decision.block UnifiedPost.block_reason, 1) :=
  ⟨by decide, by decide,
   (c2_high_risk_blocks (Content.cstr "ran rm -rf on the temp dir")
     (Content.cstr "delete it maybe") "ran rm -rf on the temp dir" "delete it maybe"
     [] [] "" ⟨50, true, "t"⟩ (by decide) (Or.inl (by decide)) (by decide) (by decide)
     (by decide) (by decide) (by decide) (by decide) (by decide)).1,
   (c2_high_risk_blocks (Content.cstr "ran rm -rf on the temp dir")
     (Content.cstr "delete it maybe") "ran rm -rf on the temp dir" "delete it maybe"
     [] [] "" ⟨50, true, "t"⟩ (by decide) (Or.inl (by decide)) (by decide) (by decide)
     (by decide) (by decide) (by decide) (by decide) (by decide)).2⟩

/-! ## Claim C5 -/

/-- C5, counterexample.  The second transcript line parses as JSON but is not
an object (for example a bare number): the reader's inner handler only
catches `json.JSONDecodeError`, the resulting `AttributeError` reaches the
outer handler, and the scan aborts with `None` — even though an earlier line
is a perfectly usable assistant record with text `"hello"`.  Such a line is
not skipped silently as the claim states. -/
theorem c5_counterexample :
    Reader.entryUsable ⟨some "assistant", some "assistant", Content.cstr "hello"⟩ = true ∧
      Reader.get_last_assistant_response
        (some [LineParse.entry ⟨some "assistant", some "assistant", Content.cstr "hello"⟩,
               LineParse.badShape]) = none := by
  refine ⟨by decide, by decide⟩

/-- C5, amended.  The reader never raises: an unreadable file yields
`"none found"`, and otherwise the result is determined by the first line of
the backward scan that stops it — lines failing JSON decoding are skipped
silently, a line parsing to a non-record value aborts the scan with
`"none found"`, and the first record with `type == 'assistant'`,
`message.role == 'assistant'` and truthy content is flattened there (list
content with empty flattened text also yields `"none found"`); if no line
stops the scan the result is `"none found"`. -/
theorem c5_reader_characterization :
    Reader.get_last_assistant_response none = none ∧
      ∀ lines : List LineParse,
        Reader.get_last_assistant_response (some lines) =
          (match List.find? Reader.stopsScan lines.reverse with
           | some (LineParse.entry e) => Reader.flattenStop e.content
           | some LineParse.badShape => none
           | some LineParse.parseError => none
           | none => none) :=
  ⟨rfl, fun lines => scanBack_eq_find lines.reverse⟩

/-! ## Claim C6 -/

/-- C6.  A message that already contains an explicit confidence statement is
never re-annotated: the scorer hook and the display hook both short-circuit
to a silent ALLOW (exit 0, no output).  Both hooks are pure functions of the
message, and since nothing is appended the message is unchanged, so a second
run satisfies the same hypotheses and is again a silent ALLOW — the decision
is idempotent. -/
theorem c6_idempotent_skip (content resp : String) (tc : List ToolCall)
    (tn : String) (cfg : DisplayConfig) (perf cost : String)
    (h1 : hasConfStmt (lowerL content) = true)
    (h2 : isSub ("confidence:".toList) (lowerL resp) = true)
    (h3 : resp.toList.contains '%' = true) :
    Scorer.main (Content.cstr content) tc tn = (Decision.silent, 0) ∧
      Display.decide_on resp cfg perf cost = (Decision.silent, 0) := by
  constructor
  · unfold Scorer.main
    have hnb : isBlank content = false := hasConf_nonblank content h1
    simp [postContentText, hnb, h1]
  · have hcond :
        (isSub ("confidence:".toList) (lowerL resp) && resp.toList.contains '%') = true := by
      rw [h2, h3]
      rfl
    unfold Display.decide_on
    rw [hcond]
    rfl

/-- C6 witness: a message carrying `Confidence: 80%`. -/
theorem c6_witness :
    hasConfStmt (lowerL "Confidence: 80% - tests pass") = true ∧
      Scorer.main (Content.cstr "Confidence: 80% - tests pass") [] "Edit" =
        (Decision.silent, 0) ∧
      Display.decide_on "Confidence: 80% - tests pass" ⟨50, true⟩ "p" "c" =
        (Decision.silent, 0) :=
  ⟨by decide,
   (c6_idempotent_skip "Confidence: 80% - tests pass" "Confidence: 80% - tests pass"
     [] "Edit" ⟨50, true⟩ "p" "c" (by decide) (by decide) (by decide)).1,
   (c6_idempotent_skip "Confidence: 80% - tests pass" "Confidence: 80% - tests pass"
     [] "Edit" ⟨50, true⟩ "p" "c" (by decide) (by decide) (by decide)).2⟩

/-! ## Claim C7 -/

/-- C7.  Independent of risk, low confidence escalates to a `prompt_user`
decision with `allow_continue = true`: in the notification hook (explicit
confidence below the threshold, or estimated confidence below the threshold
minus the 10-point buffer) the `default_action` is `"continue"`; in the
prompt-validation (UserPromptSubmit validator) context, confidence below the
threshold — in particular an estimate below the buffered threshold — yields
`default_action = "block"`.  Both exit 0. -/
theorem c7_low_confidence_prompts (s resp : String) (tc : List ToolCall)
    (nfile vfile : Option ParsedConfig)
    (h1 : 10 ≤ (pyStrip s).length)
    (h2 : match Notif.extract_confidence (Content.cstr s) with
          | some e => e < Notif.get_config nfile
          | none => (Notif.estimate_confidence (Content.cstr s) tc : Int) <
                    (Notif.get_config nfile : Int) - 10)
    (h3 : match findConf (lowerL resp) with
          | some v => v < Validator.read_min_confidence vfile
          | none => (Validator.estimate_confidence resp : Int) <
                    (Validator.read_min_confidence vfile : Int) - 10) :
    isPromptUserWith (Notif.main (Content.cstr s) tc nfile).1 true "continue" = true ∧
      (Notif.main (Content.cstr s) tc nfile).2 = 0 ∧
      isPromptUserWith (Validator.decide_on resp
        (Validator.read_min_confidence vfile)).1 true "block" = true ∧
      (Validator.decide_on resp (Validator.read_min_confidence vfile)).2 = 0 := by
  have hs : ¬(s = "") := by
    intro he
    subst he
    exact absurd h1 (by decide)
  have htr : truthyContent (Content.cstr s) = true := by
    simp [truthyContent, hs]
  have hshort : Notif.tooShortContent (Content.cstr s) = false :=
    decide_eq_false (Nat.not_lt.mpr h1)
  have hwarn :
      (Notif.should_show_warning (Content.cstr s) tc (Notif.get_config nfile)).1 = true := by
    unfold Notif.should_show_warning
    cases hx : Notif.extract_confidence (Content.cstr s) with
    | some e =>
      rw [hx] at h2
      exact decide_eq_true h2
    | none =>
      rw [hx] at h2
      exact decide_eq_true h2
  have hmain :
      Notif.main (Content.cstr s) tc nfile =
        (Decision.promptUser
          (Notif.warning_message
            (Notif.should_show_warning (Content.cstr s) tc (Notif.get_config nfile)).2
            (Notif.get_config nfile)) true "continue", 0) := by
    unfold Notif.main
    rw [htr, hshort]
    simp only [hwarn, decide_eq_false_iff_not, Bool.or_false, if_true]
    rfl
  have hlt : (Validator.confidence_extraction resp).1 <
      Validator.read_min_confidence vfile := by
    unfold Validator.confidence_extraction
    cases hx : findConf (lowerL resp) with
    | some v =>
      rw [hx] at h3
      exact h3
    | none =>
      rw [hx] at h3
      show Validator.estimate_confidence resp < Validator.read_min_confidence vfile
      omega
  have hvmain :
      Validator.decide_on resp (Validator.read_min_confidence vfile) =
        (Decision.promptUser
          (Validator.prompt_message (Validator.confidence_extraction resp).1
            (Validator.read_min_confidence vfile)) true "block", 0) := by
    simp only [Validator.decide_on]
    rw [if_pos hlt]
  refine ⟨?_, ?_, ?_, ?_⟩
  · rw [hmain]
    rfl
  · rw [hmain]
  · rw [hvmain]
    rfl
  · rw [hvmain]

/-- C7 witness: an uncertainty-laden notification (estimate 30 < 50 − 10) and
an explicit 20% statement against the validator fallback threshold 85. -/
theorem c7_witness :
    isPromptUserWith (Notif.main
      (Content.cstr "not sure maybe unclear possibly wrong guess here ok today")
      [] none).1 true "continue" = true ∧
      isPromptUserWith (Validator.decide_on "Confidence: 20% done"
        (Validator.read_min_confidence none)).1 true "block" = true :=
  ⟨(c7_low_confidence_prompts
      "not sure maybe unclear possibly wrong guess here ok today"
      "Confidence: 20% done" [] none none (by decide)
      (by show (Notif.estimate_confidence
            (Content.cstr "not sure maybe unclear possibly wrong guess here ok today")
            [] : Int) < (Notif.get_config none : Int) - 10
          decide)
      (by show (20 : Nat) < Validator.read_min_confidence none
          decide)).1,
   (c7_low_confidence_prompts
      "not sure maybe unclear possibly wrong guess here ok today"
      "Confidence: 20% done" [] none none (by decide)
      (by show (Notif.estimate_confidence
            (Content.cstr "not sure maybe unclear possibly wrong guess here ok today")
            [] : Int) < (Notif.get_config none : Int) - 10
          decide)
      (by show (20 : Nat) < Validator.read_min_confidence none
          decide)).2.2.1⟩

/-! ## Claim C8 -/

/-- C8, counterexample.  On a missing/unreadable/unparseable config file the
UserPromptSubmit validator substitutes 85 as its threshold, not the claimed
default of 50 — the claim fails for this component. -/
theorem c8_counterexample :
    Validator.read_min_confidence none = 85 ∧ Validator.read_min_confidence none ≠ 50 :=
  ⟨rfl, by decide⟩

/-- C8, amended.  When the configuration file is missing, empty or
unparseable, the cache provider returns `{minConfidence: 50, verbose: true}`
(with `lastUpdated` set to the current time), the display hook returns
`{minConfidence: 50, verbose: true}`, and the notification hook returns the
threshold 50; the UserPromptSubmit validator alone substitutes 85 on a read
failure (its 50 default applies only to a missing key in a readable file).
No component raises: every reader is total on the failure input. -/
theorem c8_config_defaults (now : Int) (iso : String) :
    (CacheCfg.get_cached_config now iso none ⟨none, 0⟩).1 = ⟨50, true, iso⟩ ∧
      Display.get_config none = ⟨50, true⟩ ∧
      Notif.get_config none = 50 ∧
      Validator.read_min_confidence none = 85 ∧
      Validator.read_min_confidence (some ⟨none, none, none⟩) = 50 :=
  ⟨rfl, rfl, rfl, rfl, rfl⟩

/-! ## Claim C9 -/

/-- C9.  Cache state-transition invariant of `get_cached_config`: a cached
value younger than the 30-second TTL is returned with the state unchanged and
no file access; on every other path the returned config and the current
timestamp are stored.  After any call the cache holds exactly the returned
config, so a follow-up call within the TTL of the resulting state performs no
read and returns the same config — the source is read at most once per TTL
window. -/
theorem c9_cache_invariant (now now2 : Int) (iso iso2 : String)
    (file file2 : Option ParsedConfig) (st : CacheCfg.CacheState) (d : Config) :
    (st.data = some d → now - st.timestamp < 30 →
      CacheCfg.get_cached_config now iso file st = (d, st, false)) ∧
      ((st.data = none ∨ 30 ≤ now - st.timestamp) →
        (CacheCfg.get_cached_config now iso file st).2.1.timestamp = now ∧
          (CacheCfg.get_cached_config now iso file st).2.2 = true) ∧
      ((CacheCfg.get_cached_config now iso file st).2.1.data =
        some (CacheCfg.get_cached_config now iso file st).1) ∧
      (now2 - (CacheCfg.get_cached_config now iso file st).2.1.timestamp < 30 →
        CacheCfg.get_cached_config now2 iso2 file2
            (CacheCfg.get_cached_config now iso file st).2.1 =
          ((CacheCfg.get_cached_config now iso file st).1,
           (CacheCfg.get_cached_config now iso file st).2.1, false)) := by
  have key : (CacheCfg.get_cached_config now iso file st).2.1.data =
      some (CacheCfg.get_cached_config now iso file st).1 := by
    unfold CacheCfg.get_cached_config
    cases hst : st.data with
    | none => simp [CacheCfg.readAndCache]
    | some d' =>
      by_cases hlt : now - st.timestamp < 30
      · simp only [hlt, if_true]
        exact hst
      · simp [hlt, CacheCfg.readAndCache]
  refine ⟨?_, ?_, key, ?_⟩
  · intro hd hlt
    unfold CacheCfg.get_cached_config
    rw [hd]
    simp [hlt]
  · intro h
    unfold CacheCfg.get_cached_config
    cases hst : st.data with
    | none => simp [CacheCfg.readAndCache]
    | some d' =>
      rcases h with h | h
      · rw [hst] at h
        cases h
      · have h' : ¬(now - st.timestamp < 30) := not_lt.mpr h
        simp [h', CacheCfg.readAndCache]
  · intro hlt2
    generalize hr : CacheCfg.get_cached_config now iso file st = r at key hlt2 ⊢
    show CacheCfg.get_cached_config now2 iso2 file2 r.2.1 = (r.1, r.2.1, false)
    unfold CacheCfg.get_cached_config
    rw [key]
    simp [hlt2]

/-- C9 witness: a fresh cached value is served without a read; an expired one
is re-read and restored with the current timestamp. -/
theorem c9_witness :
    CacheCfg.get_cached_config 10 "i" none ⟨some ⟨50, true, "a"⟩, 0⟩ =
        (⟨50, true, "a"⟩, ⟨some ⟨50, true, "a"⟩, 0⟩, false) ∧
      (CacheCfg.get_cached_config 40 "j" none ⟨some ⟨50, true, "a"⟩, 0⟩).2.2 = true :=
  ⟨(c9_cache_invariant 10 0 "i" "x" none none ⟨some ⟨50, true, "a"⟩, 0⟩
      ⟨50, true, "a"⟩).1 rfl (by decide),
   ((c9_cache_invariant 40 0 "j" "x" none none ⟨some ⟨50, true, "a"⟩, 0⟩
      ⟨50, true, "a"⟩).2.1 (Or.inr (by decide))).2⟩

/-! ## Claim C10 -/

/-- A non-empty tool-call list keeps `analyze_operation_risk` away from the
no-risk level: the third branch of the chain tests `len(tool_calls) > 0`. -/
theorem analyze_risk_not_nothing (content : String) (tc : List ToolCall)
    (h : tc ≠ []) : (Scorer.analyze_operation_risk content tc).1 ≠ Risk.nothing := by
  have hlen : tc.length > 0 := List.length_pos.mpr h
  unfold Scorer.analyze_operation_risk
  simp only []
  split
  · simp
  · split
    · simp
    · split
      · simp
      · rename_i hc3
        exfalso
        apply hc3
        rw [decide_eq_true hlen]
        simp

/-- C10, counterexample.  `tool_name = " "` is a non-empty string and the
response content has no confidence statement, yet the scorer takes the silent
skip path and prints nothing, because the emptiness test uses
`tool_name.strip()`. -/
theorem c10_counterexample :
    (" " : String) ≠ "" ∧
      hasConfStmt (lowerL "") = false ∧
      Scorer.main (Content.cstr "") [] " " = (Decision.silent, 0) := by
  refine ⟨by decide, by decide, by decide⟩

/-- C10, amended.  With a non-empty `tool_calls` list the risk analyzer never
returns the no-risk level, and whenever the scorer receives a tool name that
is non-blank after stripping (and the content carries no confidence
statement) it prints a decision object before exiting instead of taking the
silent skip path. -/
theorem c10_tool_prints_decision (rc : Content) (content : String)
    (tc tc2 : List ToolCall) (tn : String)
    (h1 : postContentText rc = some content)
    (h2 : isBlank tn = false)
    (h3 : hasConfStmt (lowerL content) = false)
    (h4 : tc2 ≠ []) :
    (Scorer.analyze_operation_risk content tc2).1 ≠ Risk.nothing ∧
      printsDecision (Scorer.main rc tc tn).1 = true := by
  refine ⟨analyze_risk_not_nothing content tc2 h4, ?_⟩
  have hsyn : (Scorer.analyze_operation_risk ("Used tool: " ++ tn)
      [⟨tn⟩]).1 ≠ Risk.nothing :=
    analyze_risk_not_nothing _ _ (by simp)
  have hrisk : Scorer.riskOf content tc tn =
      (Scorer.analyze_operation_risk ("Used tool: " ++ tn) [⟨tn⟩]).1 := by
    unfold Scorer.riskOf
    rw [h2]
    rfl
  unfold Scorer.main
  rw [h1]
  have hfirst : (isBlank content && isBlank tn) = false := by
    rw [h2]
    simp
  have hsecond : (!(isBlank content) && hasConfStmt (lowerL content)) = false := by
    rw [h3]
    simp
  simp only [hfirst, hsecond, Bool.false_eq_true, if_false]
  rw [hrisk]
  cases hv : (Scorer.analyze_operation_risk ("Used tool: " ++ tn) [⟨tn⟩]).1 with
  | nothing => exact absurd hv hsyn
  | low => rfl
  | medium => rfl
  | high => rfl

/-- C10 witness. -/
theorem c10_witness :
    (Scorer.analyze_operation_risk "checked files" [⟨"Read"⟩]).1 ≠ Risk.nothing ∧
      printsDecision (Scorer.main (Content.cstr "checked files") [] "Read").1 = true :=
  ⟨(c10_tool_prints_decision (Content.cstr "checked files") "checked files" []
      [⟨"Read"⟩] "Read" (by decide) (by decide) (by decide) (by decide)).1,
   (c10_tool_prints_decision (Content.cstr "checked files") "checked files" []
      [⟨"Read"⟩] "Read" (by decide) (by decide) (by decide) (by decide)).2⟩
